import Mathlib

/-!
Verification of the `mapDataMiner` extraction orchestrator
(`src/lib/scraper.ts`, `src/app/api/scrape/route.ts`) against its
natural-language specification.  The TypeScript code is shallowly embedded:
pure fragments become Lean functions, the stateful loops become explicit
state passing with fuel equal to their source iteration bound, DOM reads and
number parsing become oracle parameters, and fallible operations return
`Option`.  Percentages are rationals, matching JS float arithmetic on the
small values involved; counters are `Nat`.
-/

set_option maxRecDepth 8000

namespace MapDataMiner

/-! ### Control state machine (scraper.ts 6, 25-66) -/

/-- `export type ScrapingState = 'running' | 'paused' | 'cancelled' | 'completed'`. -/
inductive ScrapingState where
  | running
  | paused
  | cancelled
  | completed
deriving DecidableEq, Repr

/-- `pause()` (scraper.ts 25-36): `this.scrapingState = 'paused'`, with no
guard on the previous state. -/
def pause (_s : ScrapingState) : ScrapingState := ScrapingState.paused

/-- `resume()` (scraper.ts 38-49): `this.scrapingState = 'running'`,
unconditionally. -/
def resume (_s : ScrapingState) : ScrapingState := ScrapingState.running

/-- `cancel()` (scraper.ts 51-62): `this.scrapingState = 'cancelled'`,
unconditionally. -/
def cancel (_s : ScrapingState) : ScrapingState := ScrapingState.cancelled

/-! ### Extracted records (scraper.ts 966-1153, and the identical parallel
copy at 1259-1441; field types from `BusinessData` in the types module).
The `id` (built from `Date.now()`) and `scrapedAt` fields are outside every
claim and are omitted. -/

/-- The shape of one extracted record as assembled at scraper.ts 1141-1153
and 1429-1441. -/
structure BusinessData where
  name : String
  address : String
  phone : Option String
  website : Option String
  rating : Option ℚ
  reviewCount : Option ℕ
  category : Option String
  hours : Option String
  coordinates : Option (ℚ × ℚ)
deriving DecidableEq, Repr

/-- Selector cascade shared by `getName`, `getAddress`, `getCategory`,
`getHours` (scraper.ts 967-985, 987-1004, 1087-1102, 1104-1119): each
candidate selector yields `none` (no element or null textContent) or its
textContent; the first candidate whose trimmed text is nonempty wins,
otherwise the result is the empty string. -/
def textCascade : List (Option String) → String
  | [] => ""
  | none :: rest => textCascade rest
  | some t :: rest => if t.trim = "" then textCascade rest else t.trim

/-- `getRating` (scraper.ts 1046-1065): for each candidate with truthy
textContent, `parseFloat` the trimmed text (the oracle returns `none` for
NaN); the first parse that lands in [0,5] is returned, otherwise 0. -/
def getRating (parseFloat : String → Option ℚ) : List (Option String) → ℚ
  | [] => 0
  | none :: rest => getRating parseFloat rest
  | some t :: rest =>
    if t = "" then getRating parseFloat rest
    else
      match parseFloat t.trim with
      | none => getRating parseFloat rest
      | some r => if 0 ≤ r ∧ r ≤ 5 then r else getRating parseFloat rest

/-- `getReviewCount` (scraper.ts 1067-1085): for each candidate with truthy
textContent, match the digit-group pattern on the trimmed text (the oracle
returns the `parseInt` of the first match, a natural number, or `none` when
the regex does not match); the first match is returned, otherwise 0. -/
def getReviewCount (matchCount : String → Option ℕ) : List (Option String) → ℕ
  | [] => 0
  | none :: rest => getReviewCount matchCount rest
  | some t :: rest =>
    if t = "" then getReviewCount matchCount rest
    else
      match matchCount t.trim with
      | none => getReviewCount matchCount rest
      | some c => c

/-- Record assembly (scraper.ts 1141-1153, identically 1429-1441): JS `||`
falls back on the placeholder for empty name/address and turns empty
optional strings into `undefined`; `rating`/`reviewCount` are kept only when
strictly positive. -/
def makeBusiness (name address phone website : String) (rating : ℚ)
    (reviewCount : ℕ) (category hours : String)
    (coordinates : Option (ℚ × ℚ)) : BusinessData :=
  { name := if name = "" then "Unknown Business" else name
  , address := if address = "" then "Address not available" else address
  , phone := if phone = "" then none else some phone
  , website := if website = "" then none else some website
  , rating := if 0 < rating then some rating else none
  , reviewCount := if 0 < reviewCount then some reviewCount else none
  , category := if category = "" then none else some category
  , hours := if hours = "" then none else some hours
  , coordinates := coordinates }

/-- The per-target record built by either extraction path from the DOM
oracle values (scraper.ts 966-1153 sequential, 1259-1441 parallel: the two
evaluate blocks and assemblies are verbatim copies). -/
def extractedRecord (nameCands addrCands ratingCands countCands : List (Option String))
    (parseFloat : String → Option ℚ) (matchCount : String → Option ℕ)
    (phone website category hours : String) (coordinates : Option (ℚ × ℚ)) :
    BusinessData :=
  makeBusiness (textCascade nameCands) (textCascade addrCands) phone website
    (getRating parseFloat ratingCands) (getReviewCount matchCount countCands)
    category hours coordinates

/-- When present, a rating is strictly positive and at most 5
(claim C10 wording). -/
def ratingOk : Option ℚ → Prop
  | none => True
  | some r => 0 < r ∧ r ≤ 5

/-- When present, a review count is a strictly positive integer
(claim C10 wording). -/
def reviewCountOk : Option ℕ → Prop
  | none => True
  | some c => 0 < c

/-! ### Per-target retry loop (scraper.ts 883-1194 sequential,
1196-1461 parallel) -/

/-- Outcome of one navigation attempt of the per-target extractor. -/
inductive AttemptOutcome where
  | blockedPage                  -- missing/garbled title or sorry/blocked URL (scraper.ts 934-953, 1237-1246)
  | missingContent               -- title-like selector never appeared (scraper.ts 956-964, 1249-1257)
  | thrownError                  -- navigation or evaluation threw (scraper.ts 1158-1190, 1446-1457)
  | extracted (b : BusinessData) -- successful extraction (scraper.ts 1156, 1444)
deriving Repr

/-- The `let retries = n; while (retries > 0) { ... }` loop shared by both
extractor paths: a successful attempt returns the record; any failure does
`retries--`, returns `null` when the budget is exhausted and otherwise loops.
The second component counts the attempts actually made; the oracle
`attempt i` is the outcome of the i-th (0-based) navigation attempt. -/
def retryGo (attempt : ℕ → AttemptOutcome) : ℕ → ℕ → Option BusinessData × ℕ
  | 0, made => (none, made)
  | retries + 1, made =>
    match attempt made with
    | AttemptOutcome.extracted b => (some b, made + 1)
    | _ => if retries = 0 then (none, made + 1) else retryGo attempt retries (made + 1)

/-- `scrapeBusinessDetails` retry structure (scraper.ts 889-1193):
`let retries = 3`. -/
def scrapeBusinessDetails (attempt : ℕ → AttemptOutcome) : Option BusinessData × ℕ :=
  retryGo attempt 3 0

/-- `scrapeBusinessDetailsParallel` retry structure (scraper.ts 1202-1460):
`let retries = 2`. -/
def scrapeBusinessDetailsParallel (attempt : ℕ → AttemptOutcome) : Option BusinessData × ℕ :=
  retryGo attempt 2 0

/-! ### Discovery scroll loop (scraper.ts 580-881) -/

/-- The mutable loop state of `scrollAndLoadAllResults`
(scraper.ts 624-629). -/
structure ScrollSt where
  scrollAttempts : ℕ
  consecutiveNoChange : ℕ
  lastBusinessCount : ℕ
  previousBusinessCount : ℕ
deriving DecidableEq, Repr

/-- One body execution of the scroll loop (scraper.ts 640-874).  The DOM is
the oracle `counts`: iteration with pre-state attempt counter `a` reads
`currentBusinessCount = counts (2*a)` at its top (scraper.ts 654-663) and
`newBusinessCount = counts (2*a+1)` after the scroll and click strategies
(scraper.ts 805-814).  Growth resets `consecutiveNoChange` and records the
new count (816-821); the two no-growth branches (822-867) both increment
`consecutiveNoChange` and differ only in logging and extra best-effort page
interactions, which the oracle already absorbs. -/
def scrollStep (counts : ℕ → ℕ) (s : ScrollSt) : ScrollSt :=
  if counts (2 * s.scrollAttempts) < counts (2 * s.scrollAttempts + 1) then
    { scrollAttempts := s.scrollAttempts + 1
      consecutiveNoChange := 0
      lastBusinessCount := counts (2 * s.scrollAttempts + 1)
      previousBusinessCount := counts (2 * s.scrollAttempts + 1) }
  else
    { s with
      scrollAttempts := s.scrollAttempts + 1
      consecutiveNoChange := s.consecutiveNoChange + 1 }

/-- The scroll loop (scraper.ts 639-875):
`while (scrollAttempts < maxScrollAttempts && consecutiveNoChange < maxConsecutiveNoChange)`
with the early `break` at `consecutiveNoChange >= 4 && lastBusinessCount > 0`
(scraper.ts 870-874).  The fuel equals `maxA`; since every body execution
increments `scrollAttempts`, fuel exhaustion coincides with the
`scrollAttempts < maxScrollAttempts` guard failing, so this is the exact
loop. -/
def scrollGo (counts : ℕ → ℕ) (maxA maxN : ℕ) : ℕ → ScrollSt → ScrollSt
  | 0, s => s
  | fuel + 1, s =>
    if s.scrollAttempts < maxA ∧ s.consecutiveNoChange < maxN then
      let t := scrollStep counts s
      if 4 ≤ t.consecutiveNoChange ∧ 0 < t.lastBusinessCount then t
      else scrollGo counts maxA maxN fuel t
    else s

/-- Initial scroll state (scraper.ts 624-629). -/
def scrollInit : ScrollSt :=
  { scrollAttempts := 0
    consecutiveNoChange := 0
    lastBusinessCount := 0
    previousBusinessCount := 0 }

/-- `scrollAndLoadAllResults` limits (scraper.ts 624-637):
`maxScrollAttempts` 30 normal / 15 conservative, `maxConsecutiveNoChange`
6 normal / 3 conservative. -/
def scrollAndLoadAllResults (counts : ℕ → ℕ) (conservative : Bool) : ScrollSt :=
  scrollGo counts (if conservative then 15 else 30) (if conservative then 3 else 6)
    (if conservative then 15 else 30) scrollInit

/-- The 180000 ms `setTimeout` callback (scraper.ts 586-589): its body is a
`console.log` followed by `return`, which exits only the callback — it
leaves the scroll loop state untouched. -/
def scrollTimeoutCallback (s : ScrollSt) : ScrollSt := s

/-- The scroll loop with wall-clock accounting: `dur a` is the duration in
milliseconds of the body execution whose pre-state counter is `a`.  The
loop itself never consults the clock; once the elapsed time passes
180000 ms the timer fires and `scrollTimeoutCallback` is applied to the
state (scraper.ts 586-589), which is the only effect the timeout has. -/
def scrollGoTimed (counts dur : ℕ → ℕ) (maxA maxN : ℕ) :
    ℕ → ScrollSt → ℕ → ScrollSt × ℕ
  | 0, s, elapsed => (s, elapsed)
  | fuel + 1, s, elapsed =>
    if s.scrollAttempts < maxA ∧ s.consecutiveNoChange < maxN then
      let t := scrollStep counts s
      let elapsed2 := elapsed + dur s.scrollAttempts
      let t2 := if 180000 < elapsed2 then scrollTimeoutCallback t else t
      if 4 ≤ t2.consecutiveNoChange ∧ 0 < t2.lastBusinessCount then (t2, elapsed2)
      else scrollGoTimed counts dur maxA maxN fuel t2 elapsed2
    else (s, elapsed)

/-! ### Link harvesting (scraper.ts 288-345) -/

/-- Whether `needle` occurs at the head of `hay`. -/
def matchesAt : List Char → List Char → Bool
  | _, [] => true
  | [], _ :: _ => false
  | c :: cs, d :: ds => c == d && matchesAt cs ds

/-- Whether `needle` occurs anywhere in `hay`. -/
def hasSubList : List Char → List Char → Bool
  | [], needle => needle.isEmpty
  | h :: t, needle => matchesAt (h :: t) needle || hasSubList t needle

/-- JS `String.prototype.includes`. -/
def strContainsSub (hay needle : String) : Bool :=
  hasSubList hay.toList needle.toList

/-- The final link validation (scraper.ts 341-343):
`link && link.includes('/maps/place/') && link.length > 10`. -/
def keepLink (link : String) : Bool :=
  !(link == "") && strContainsSub link "/maps/place/" && decide (10 < link.length)

/-- `Array.from(new Set(list))`: keeps the first occurrence of each element,
in order.  `seen` is the set built so far. -/
def jsSetDedupAux (seen : List String) : List String → List String
  | [] => []
  | x :: xs =>
    if x ∈ seen then jsSetDedupAux seen xs
    else x :: jsSetDedupAux (x :: seen) xs

/-- `Array.from(new Set(l))` (scraper.ts 310, 333, 341). -/
def jsSetDedup (l : List String) : List String := jsSetDedupAux [] l

/-- Link-list combination of `scrapeBusinesses` (scraper.ts 289-343) on its
success path: `method1` are the direction-link hrefs (293-296), `method2`
the place-detail hrefs (304-307), `method3` the clickable-entry hrefs
(319-330); they are unioned with progressive dedup and finally deduped and
filtered by `keepLink`. -/
def harvestLinks (method1 method2 method3 : List String) : List String :=
  (jsSetDedup (jsSetDedup (jsSetDedup (method1 ++ method2) ++ method3))).filter keepLink

/-- Modelled from the spec wording of claim C6, for comparison with
`harvestLinks`: the union of the three strategies deduplicated by raw token,
with only the tokens not longer than the minimal plausible length (10)
discarded. -/
def specFinalLinks (m1 m2 m3 : List String) : List String :=
  (jsSetDedup (m1 ++ m2 ++ m3)).filter (fun s => decide (10 < s.length))

/-! ### Result cap and batch scheduling (scraper.ts 399-549) -/

/-- JS `n || d` on numbers: `0` is falsy (scraper.ts 400:
`params.maxResults || 500`). -/
def jsOrDefault (n d : ℕ) : ℕ := if n = 0 then d else n

/-- `actualMaxResults` (scraper.ts 400-402): the minimum of the caller
maximum (with the `|| 500` fallback) and the `MAX_BUSINESSES_PER_SEARCH`
environment ceiling. -/
def actualMaxResults (maxResults envMax : ℕ) : ℕ :=
  min (jsOrDefault maxResults 500) envMax

/-- One batch (scraper.ts 462-541): the parallel branch keeps the fulfilled
non-null settled results in batch order (480-487) and the sequential
fallback pushes each successful extraction (494-541); either way each batch
member contributes at most one record.  `extract g` is the outcome for the
link with global index `g`. -/
def processBatch (extract : ℕ → Option BusinessData) (batchStart : ℕ)
    (batch : List String) : List BusinessData :=
  (List.range batch.length).filterMap (fun i => extract (batchStart + i))

/-- The batch loop body, fuelled: each iteration consumes at least one
remaining link (for a positive batch size), so fuel equal to the initial
link count makes this the exact `for` loop. -/
def runBatchesGo (extract : ℕ → Option BusinessData) (batchSize : ℕ) :
    ℕ → ℕ → List String → List BusinessData
  | 0, _, _ => []
  | _ + 1, _, [] => []
  | fuel + 1, batchStart, x :: xs =>
    if batchSize = 0 then []
    else
      processBatch extract batchStart ((x :: xs).take batchSize) ++
        runBatchesGo extract batchSize fuel (batchStart + batchSize) ((x :: xs).drop batchSize)

/-- The batch loop (scraper.ts 415-549):
`for (batchStart = 0; batchStart < linksToProcess.length; batchStart += batchSize)`
over `slice(batchStart, batchStart + batchSize)` batches.  With
`batchSize = 0` the source loop would never advance; the embedding returns
`[]` there and no theorem relies on that case. -/
def runBatches (extract : ℕ → Option BusinessData) (batchSize batchStart : ℕ)
    (l : List String) : List BusinessData :=
  runBatchesGo extract batchSize l.length batchStart l

/-- The record-producing core of `scrapeBusinesses` (scraper.ts 399-549):
cap the discovered links at `actualMaxResults` (404), set the batch size to
`min maxConcurrent 5` (409-410), and run the batch loop. -/
def scrapeBusinesses (businessLinks : List String)
    (maxResults envMax maxConcurrent : ℕ)
    (extract : ℕ → Option BusinessData) : List BusinessData :=
  runBatches extract (min maxConcurrent 5) 0
    (businessLinks.take (actualMaxResults maxResults envMax))

/-- A concrete record for counterexamples. -/
def demoBusiness : BusinessData :=
  makeBusiness "Cafe" "1 Main St" "" "" 0 0 "" "" none

/-! ### Parallel page ownership (scraper.ts 442-491) -/

/-- The page-creation loop (scraper.ts 445-454): one `newPage` per batch
member, executed only when `browser.connected` holds at that step; a page is
identified by its creation step. -/
def createdPages (batchLen : ℕ) (connected : ℕ → Bool) : List ℕ :=
  (List.range batchLen).filter connected

/-- The page picked for each batch member (scraper.ts 464):
`const pageIndex = index % pages.length`. -/
def pageAssignment (batchLen pagesLen : ℕ) : List ℕ :=
  (List.range batchLen).map (fun index => index % pagesLen)

/-- Batch-end cleanup (scraper.ts 490):
`await Promise.all(pages.map(page => page.close()))` — every page of the
batch list is closed. -/
def closeBatchPages (pages : List ℕ) : List ℕ := pages

/-! ### Progress snapshots (scraper.ts 25-62, 224-231, 370-377, 528-541,
551-571) -/

/-- The `status` tag of a `ScrapingProgress` (types module). -/
inductive ProgressStatus where
  | idle
  | searching
  | scraping
  | paused
  | cancelled
  | completed
  | error
deriving DecidableEq, Repr

/-- A progress snapshot restricted to the fields the claims speak about;
`currentStep`, `totalFound`, `scraped` and `errors` are dropped. -/
structure ScrapingProgress where
  status : ProgressStatus
  progress : ℚ
deriving DecidableEq, Repr

/-- JS `Math.round`: half rounds toward positive infinity. -/
def jsRound (q : ℚ) : ℤ := ⌊q + 1 / 2⌋

/-- Snapshot at search start (scraper.ts 224-231). -/
def searchingSnap : ScrapingProgress :=
  { status := ProgressStatus.searching, progress := 0 }

/-- Snapshot once links are discovered (scraper.ts 370-377). -/
def extractionStartSnap : ScrapingProgress :=
  { status := ProgressStatus.scraping, progress := 10 }

/-- Per-item snapshot of the sequential path (scraper.ts 529-540):
`10 + (globalIndex / linksToProcess.length) * 85`, with status `paused` when
the user paused meanwhile. -/
def itemSnap (isPausedNow : Bool) (globalIndex len : ℕ) : ScrapingProgress :=
  { status := if isPausedNow then ProgressStatus.paused else ProgressStatus.scraping
    progress := 10 + ((globalIndex : ℚ) / (len : ℚ)) * 85 }

/-- Snapshot emitted by `pause()` (scraper.ts 28-35):
`Math.round((currentBusinessIndex / totalBusinessesToScrape) * 100)`. -/
def pauseSnap (idx total : ℕ) : ScrapingProgress :=
  { status := ProgressStatus.paused
    progress := (jsRound (((idx : ℚ) / (total : ℚ)) * 100) : ℚ) }

/-- Snapshot emitted by `resume()` (scraper.ts 41-48): same percentage
formula, status `scraping`. -/
def resumeSnap (idx total : ℕ) : ScrapingProgress :=
  { status := ProgressStatus.scraping
    progress := (jsRound (((idx : ℚ) / (total : ℚ)) * 100) : ℚ) }

/-- Snapshot emitted by `cancel()` (scraper.ts 54-61). -/
def cancelSnap (idx total : ℕ) : ScrapingProgress :=
  { status := ProgressStatus.cancelled
    progress := (jsRound (((idx : ℚ) / (total : ℚ)) * 100) : ℚ) }

/-- Final snapshot of a completed run (scraper.ts 563-570). -/
def completedSnap : ScrapingProgress :=
  { status := ProgressStatus.completed, progress := 100 }

/-- The pause/resume snapshots injected before item `i` of the sequential
path: `currentBusinessIndex` was last set to the previous item index
(scraper.ts 222 initialises it to 0, 496 sets it per item), so it reads
`i - 1` (and 0 before the first item). -/
def injectPause (pauseAt : Option ℕ) (len i : ℕ) : List ScrapingProgress :=
  match pauseAt with
  | none => []
  | some p => if i = p then [pauseSnap (i - 1) len, resumeSnap (i - 1) len] else []

/-- The snapshot sequence of one successful sequential-path run over `len`
targets (scraper.ts 224, 370, 529-540, 563-570), with an optional
user pause/resume pair arriving just before item `pauseAt` while the state
is `running` again by the time the item snapshot is emitted. -/
def seqTrace (len : ℕ) (pauseAt : Option ℕ) : List ScrapingProgress :=
  searchingSnap :: extractionStartSnap ::
    ((List.range len).flatMap (fun i => injectPause pauseAt len i ++ [itemSnap false i len])
      ++ [completedSnap])

/-- Claim C7 wording as a predicate on a snapshot trace: every
percentage decrease between successive snapshots lands on the `error`
status. -/
def NoDecreaseExceptError (trace : List ScrapingProgress) : Prop :=
  List.Chain' (fun a b => b.progress < a.progress → b.status = ProgressStatus.error) trace

/-! ### Caller-visible payloads (route.ts 99-154 streaming,
156-236 non-streaming; scraper.ts 347-365) -/

/-- A server-sent event of the streaming branch (route.ts 104-143). -/
inductive SseEvent where
  | progressEvent (p : ScrapingProgress)
  | complete (success : Bool) (count : ℕ)
  | sseError (message : String)
deriving DecidableEq, Repr

/-- Whether an event is the error-typed terminal event. -/
def isErrorEvent : SseEvent → Bool
  | SseEvent.sseError _ => true
  | _ => false

/-- The terminal event of the streaming branch (route.ts 117-128): whenever
`scrapeBusinesses` resolves — also with an empty list — the stream sends
`type: 'complete', success: true` with the record count. -/
def streamingFinalEvent (businesses : List BusinessData) : SseEvent :=
  SseEvent.complete true businesses.length

/-- A JSON response of the non-streaming branch. -/
inductive RouteOutcome where
  | jsonError (category : String) (httpStatus : ℕ)
  | jsonSuccess (count httpStatus : ℕ)
deriving DecidableEq, Repr

/-- The non-streaming branch result (route.ts 201-236): slice to
`maxResults`, return the `No Results Found` 404 payload when empty and the
success payload otherwise. -/
def nonStreamingOutcome (allBusinesses : List BusinessData) (maxResults : ℕ) :
    RouteOutcome :=
  let businesses := allBusinesses.take maxResults
  if businesses.length = 0 then RouteOutcome.jsonError "No Results Found" 404
  else RouteOutcome.jsonSuccess businesses.length 200

/-- `scrapeBusinesses` when discovery yields zero links
(scraper.ts 347-365): emit a `completed`/100% snapshot and return the empty
list — no exception is thrown. -/
def scrapeBusinessesZeroLinks : List BusinessData × ScrapingProgress :=
  ([], { status := ProgressStatus.completed, progress := 100 })

end MapDataMiner

namespace MapDataMiner

/-! ## Helper lemmas -/

theorem getRating_bounds (pf : String → Option ℚ) (cands : List (Option String)) :
    0 ≤ getRating pf cands ∧ getRating pf cands ≤ 5 := by
  induction cands with
  | nil => simp [getRating]
  | cons c rest ih =>
    cases c with
    | none => simpa [getRating] using ih
    | some t =>
      simp only [getRating]
      split
      · exact ih
      · cases hpf : pf t.trim with
        | none => simpa using ih
        | some r =>
          simp only []
          split
          · next hr => exact hr
          · exact ih

theorem retryGo_succ (attempt : ℕ → AttemptOutcome) (r m : ℕ) :
    retryGo attempt (r + 1) m =
      match attempt m with
      | AttemptOutcome.extracted b => (some b, m + 1)
      | _ => if r = 0 then (none, m + 1) else retryGo attempt r (m + 1) := rfl

theorem retryGo_all_blocked (attempt : ℕ → AttemptOutcome)
    (h : ∀ i, attempt i = AttemptOutcome.blockedPage) :
    ∀ r m, retryGo attempt (r + 1) m = (none, m + (r + 1)) := by
  intro r
  induction r with
  | zero =>
    intro m
    rw [retryGo_succ, h m]
    rfl
  | succ r ih =>
    intro m
    rw [retryGo_succ, h m]
    show (if r + 1 = 0 then (none, m + 1) else retryGo attempt (r + 1) (m + 1)) = _
    rw [if_neg (Nat.succ_ne_zero r), ih (m + 1)]
    have harith : m + 1 + (r + 1) = m + (r + 1 + 1) := by omega
    rw [harith]

/-! ## Claim C1 -/

/-- Claim C1: the Control state transitions only along
running ⇄ paused, running|paused → cancelled, running → completed, and once
the state is cancelled or completed no pause/resume/cancel call changes it.
Counterexample: starting from `cancelled`, a `pause()` call moves the state
to `paused`, so the terminal states are not absorbing. -/
theorem c1_counterexample :
    pause ScrapingState.cancelled ≠ ScrapingState.cancelled := by
  decide

/-- Claim C1, amended: each control command overwrites the state
unconditionally — `pause()` always yields `paused`, `resume()` always yields
`running`, `cancel()` always yields `cancelled` — whatever the previous
state; in particular neither `cancelled` nor `completed` is absorbing. -/
theorem c1_control_commands_unconditional (s : ScrapingState) :
    pause s = ScrapingState.paused ∧
    resume s = ScrapingState.running ∧
    cancel s = ScrapingState.cancelled :=
  ⟨rfl, rfl, rfl⟩

/-! ## Claim C5 -/

/-- Claim C5: when every navigation attempt yields the blocked/sorry or
invalid-page signal, the sequential extractor makes exactly 3 attempts and
the parallel extractor exactly 2, both returning `null` (embedded as `none`,
never an exception) so the target is skipped. -/
theorem c5_retry_bound (attempt : ℕ → AttemptOutcome)
    (h : ∀ i, attempt i = AttemptOutcome.blockedPage) :
    scrapeBusinessDetails attempt = (none, 3) ∧
    scrapeBusinessDetailsParallel attempt = (none, 2) := by
  have h3 := retryGo_all_blocked attempt h 2 0
  have h2 := retryGo_all_blocked attempt h 1 0
  constructor
  · simpa [scrapeBusinessDetails] using h3
  · simpa [scrapeBusinessDetailsParallel] using h2

/-- Witness for C5 at the constant blocked-page oracle. -/
theorem c5_retry_bound_witness :
    scrapeBusinessDetails (fun _ => AttemptOutcome.blockedPage) = (none, 3) ∧
    scrapeBusinessDetailsParallel (fun _ => AttemptOutcome.blockedPage) = (none, 2) :=
  c5_retry_bound (fun _ => AttemptOutcome.blockedPage) (fun _ => rfl)

/-! ## Claim C9 -/

/-- Claim C9: a run discovering zero target links surfaces a no-results
error category in the caller-visible payload.  Counterexample: in the
streaming branch the terminal caller-visible event for the zero-link run is
`type: 'complete', success: true, count: 0` — a successful empty result,
not an error event. -/
theorem c9_counterexample :
    streamingFinalEvent scrapeBusinessesZeroLinks.1 = SseEvent.complete true 0 ∧
    isErrorEvent (streamingFinalEvent scrapeBusinessesZeroLinks.1) = false :=
  ⟨rfl, rfl⟩

/-- Claim C9, amended: only the non-streaming branch surfaces the
`No Results Found` (HTTP 404) error for an empty record list; the streaming
branch emits a successful `complete` event with count 0, and the scraper
itself reports the zero-link run as `completed`. -/
theorem c9_no_results_split (maxResults : ℕ) :
    nonStreamingOutcome [] maxResults = RouteOutcome.jsonError "No Results Found" 404 ∧
    streamingFinalEvent [] = SseEvent.complete true 0 ∧
    scrapeBusinessesZeroLinks.2.status = ProgressStatus.completed := by
  refine ⟨?_, rfl, rfl⟩
  simp [nonStreamingOutcome]

/-! ## Claim C10 -/

/-- Claim C10: every record produced by either extraction path has a
non-empty name and address (placeholders substituted when extraction finds
none), a rating that, when present, is strictly positive and at most 5, and
a review count that, when present, is strictly positive — zero values are
recorded as absent. -/
theorem c10_record_invariants
    (nameCands addrCands ratingCands countCands : List (Option String))
    (parseFloat : String → Option ℚ) (matchCount : String → Option ℕ)
    (phone website category hours : String) (coordinates : Option (ℚ × ℚ)) :
    (extractedRecord nameCands addrCands ratingCands countCands parseFloat
        matchCount phone website category hours coordinates).name ≠ "" ∧
    (extractedRecord nameCands addrCands ratingCands countCands parseFloat
        matchCount phone website category hours coordinates).address ≠ "" ∧
    ratingOk (extractedRecord nameCands addrCands ratingCands countCands parseFloat
        matchCount phone website category hours coordinates).rating ∧
    reviewCountOk (extractedRecord nameCands addrCands ratingCands countCands parseFloat
        matchCount phone website category hours coordinates).reviewCount := by
  have hb := getRating_bounds parseFloat ratingCands
  simp only [extractedRecord, makeBusiness]
  refine ⟨?_, ?_, ?_, ?_⟩
  · split_ifs with hn
    · simp
    · exact hn
  · split_ifs with ha
    · simp
    · exact ha
  · split_ifs with hr
    · exact ⟨hr, hb.2⟩
    · simp [ratingOk]
  · split_ifs with hc
    · exact hc
    · simp [reviewCountOk]

end MapDataMiner

namespace MapDataMiner

/-! ## Scroll loop lemmas -/

theorem scrollStep_attempts (counts : ℕ → ℕ) (s : ScrollSt) :
    (scrollStep counts s).scrollAttempts = s.scrollAttempts + 1 := by
  unfold scrollStep
  split <;> rfl

theorem scrollStep_noChange_le (counts : ℕ → ℕ) (s : ScrollSt) :
    (scrollStep counts s).consecutiveNoChange ≤ s.consecutiveNoChange + 1 := by
  unfold scrollStep
  split
  · exact Nat.zero_le _
  · exact Nat.le_refl _

theorem scrollStep_stalled (counts : ℕ → ℕ) (k : ℕ)
    (hstall : ∀ t, 2 * k ≤ t → counts t = counts (2 * k))
    (s : ScrollSt) (hk : k ≤ s.scrollAttempts) :
    scrollStep counts s =
      { s with
        scrollAttempts := s.scrollAttempts + 1
        consecutiveNoChange := s.consecutiveNoChange + 1 } := by
  unfold scrollStep
  have h1 : counts (2 * s.scrollAttempts) = counts (2 * k) := hstall _ (by omega)
  have h2 : counts (2 * s.scrollAttempts + 1) = counts (2 * k) := hstall _ (by omega)
  rw [h1, h2, if_neg (lt_irrefl _)]

theorem scrollStep_stall_inv (counts : ℕ → ℕ) (k : ℕ)
    (hstall : ∀ t, 2 * k ≤ t → counts t = counts (2 * k)) (s : ScrollSt)
    (hP : k ≤ s.scrollAttempts → s.scrollAttempts - k ≤ s.consecutiveNoChange) :
    k ≤ (scrollStep counts s).scrollAttempts →
      (scrollStep counts s).scrollAttempts - k ≤ (scrollStep counts s).consecutiveNoChange := by
  rcases le_or_lt k s.scrollAttempts with hk | hk
  · rw [scrollStep_stalled counts k hstall s hk]
    intro _
    have := hP hk
    simp only []
    omega
  · have ha := scrollStep_attempts counts s
    intro hk2
    rw [ha] at hk2 ⊢
    omega

theorem scrollGo_attempts_le (counts : ℕ → ℕ) (maxA maxN : ℕ) :
    ∀ fuel s, s.scrollAttempts ≤ maxA →
      (scrollGo counts maxA maxN fuel s).scrollAttempts ≤ maxA := by
  intro fuel
  induction fuel with
  | zero => intro s hs; exact hs
  | succ fuel ih =>
    intro s hs
    simp only [scrollGo]
    split
    · next hcond =>
      have ht : (scrollStep counts s).scrollAttempts ≤ maxA := by
        rw [scrollStep_attempts]; omega
      split
      · exact ht
      · exact ih _ ht
    · exact hs

theorem scrollGo_noChange_le (counts : ℕ → ℕ) (maxA maxN : ℕ) :
    ∀ fuel s, s.consecutiveNoChange ≤ maxN →
      (scrollGo counts maxA maxN fuel s).consecutiveNoChange ≤ maxN := by
  intro fuel
  induction fuel with
  | zero => intro s hs; exact hs
  | succ fuel ih =>
    intro s hs
    simp only [scrollGo]
    split
    · next hcond =>
      have ht : (scrollStep counts s).consecutiveNoChange ≤ maxN := by
        have := scrollStep_noChange_le counts s
        omega
      split
      · exact ht
      · exact ih _ ht
    · exact hs

theorem scrollGo_stall_inv (counts : ℕ → ℕ) (maxA maxN k : ℕ)
    (hstall : ∀ t, 2 * k ≤ t → counts t = counts (2 * k)) :
    ∀ fuel s,
      (k ≤ s.scrollAttempts → s.scrollAttempts - k ≤ s.consecutiveNoChange) →
      k ≤ (scrollGo counts maxA maxN fuel s).scrollAttempts →
        (scrollGo counts maxA maxN fuel s).scrollAttempts - k ≤
          (scrollGo counts maxA maxN fuel s).consecutiveNoChange := by
  intro fuel
  induction fuel with
  | zero => intro s hs; exact hs
  | succ fuel ih =>
    intro s hs
    simp only [scrollGo]
    split
    · next hcond =>
      have ht := scrollStep_stall_inv counts k hstall s hs
      split
      · exact ht
      · exact ih _ ht
    · exact hs

end MapDataMiner

namespace MapDataMiner

/-! ## Claim C3 -/

/-- Claim C3: the scroll loop body runs at most `maxScrollAttempts`
(30 normal / 15 conservative) times, the consecutive no-growth counter never
passes `maxConsecutiveNoChange` (6 normal / 3 conservative), and when the
target source stops producing new elements after `k` iterations the loop
terminates within `k + maxConsecutiveNoChange` iterations. -/
theorem c3_scroll_termination (counts : ℕ → ℕ) (conservative : Bool) (k : ℕ)
    (hstall : ∀ t, 2 * k ≤ t → counts t = counts (2 * k)) :
    (scrollAndLoadAllResults counts conservative).scrollAttempts ≤
      (if conservative then 15 else 30) ∧
    (scrollAndLoadAllResults counts conservative).consecutiveNoChange ≤
      (if conservative then 3 else 6) ∧
    (scrollAndLoadAllResults counts conservative).scrollAttempts ≤
      k + (if conservative then 3 else 6) := by
  unfold scrollAndLoadAllResults
  have hinit : scrollInit.scrollAttempts ≤ (if conservative then 15 else 30) := by
    simp [scrollInit]
  have hinitN : scrollInit.consecutiveNoChange ≤ (if conservative then 3 else 6) := by
    cases conservative <;> simp [scrollInit]
  have hinitP : k ≤ scrollInit.scrollAttempts →
      scrollInit.scrollAttempts - k ≤ scrollInit.consecutiveNoChange := by
    intro _; simp [scrollInit]
  refine ⟨?_, ?_, ?_⟩
  · exact scrollGo_attempts_le counts _ _ _ scrollInit hinit
  · exact scrollGo_noChange_le counts _ _ _ scrollInit hinitN
  · have hP := scrollGo_stall_inv counts (if conservative then 15 else 30)
      (if conservative then 3 else 6) k hstall (if conservative then 15 else 30)
      scrollInit hinitP
    have hN := scrollGo_noChange_le counts (if conservative then 15 else 30)
      (if conservative then 3 else 6) (if conservative then 15 else 30) scrollInit hinitN
    rcases le_or_lt k (scrollGo counts (if conservative then 15 else 30)
        (if conservative then 3 else 6) (if conservative then 15 else 30)
        scrollInit).scrollAttempts with hk | hk
    · have := hP hk
      omega
    · omega

/-- Witness for C3: a source that never produces any element stalls from
iteration 0 and the normal-mode loop stops within the no-change budget. -/
theorem c3_scroll_termination_witness :
    (scrollAndLoadAllResults (fun _ => 0) false).scrollAttempts ≤
      (if false then 15 else 30) ∧
    (scrollAndLoadAllResults (fun _ => 0) false).consecutiveNoChange ≤
      (if false then 3 else 6) ∧
    (scrollAndLoadAllResults (fun _ => 0) false).scrollAttempts ≤
      0 + (if false then 3 else 6) :=
  c3_scroll_termination (fun _ => 0) false 0 (fun _ _ => rfl)

/-! ## Claim C4 -/

/-- Claim C4: the discovery scroll phase is stopped by a hard 3-minute
wall-clock timeout.  The code sets the timer (scraper.ts 586-589) but its
callback only logs and returns, so it cannot stop the loop: on a page that
keeps yielding growth with 7-second iterations, the timer fires around
iteration 26 yet the loop still runs all 30 iterations (210000 ms total)
and finishes in exactly the state of the untimed loop. -/
theorem c4_timeout_does_not_stop_scrolling :
    (scrollGoTimed (fun t => t) (fun _ => 7000) 30 6 30 scrollInit 0).2 = 210000 ∧
    180000 < (scrollGoTimed (fun t => t) (fun _ => 7000) 30 6 30 scrollInit 0).2 ∧
    (scrollGoTimed (fun t => t) (fun _ => 7000) 30 6 30 scrollInit 0).1.scrollAttempts = 30 ∧
    (scrollGoTimed (fun t => t) (fun _ => 7000) 30 6 30 scrollInit 0).1 =
      scrollAndLoadAllResults (fun t => t) false := by
  decide

end MapDataMiner

namespace MapDataMiner

/-! ## Batch scheduling lemmas -/

theorem length_processBatch_le (extract : ℕ → Option BusinessData) (batchStart : ℕ)
    (batch : List String) :
    (processBatch extract batchStart batch).length ≤ batch.length := by
  unfold processBatch
  calc ((List.range batch.length).filterMap fun i => extract (batchStart + i)).length
      ≤ (List.range batch.length).length := List.length_filterMap_le _ _
    _ = batch.length := List.length_range _

theorem length_runBatchesGo_le (extract : ℕ → Option BusinessData) (batchSize : ℕ) :
    ∀ fuel batchStart (l : List String),
      (runBatchesGo extract batchSize fuel batchStart l).length ≤ l.length := by
  intro fuel
  induction fuel with
  | zero =>
    intro batchStart l
    simp [runBatchesGo]
  | succ fuel ih =>
    intro batchStart l
    cases l with
    | nil => simp [runBatchesGo]
    | cons x xs =>
      simp only [runBatchesGo]
      split
      · simp
      · next hbs =>
        have h1 := length_processBatch_le extract batchStart ((x :: xs).take batchSize)
        have h2 := ih (batchStart + batchSize) ((x :: xs).drop batchSize)
        rw [List.length_append]
        rw [List.length_take] at h1
        rw [List.length_drop] at h2
        simp only [List.length_cons] at h1 h2 ⊢
        omega

theorem length_runBatches_le (extract : ℕ → Option BusinessData)
    (batchSize batchStart : ℕ) (l : List String) :
    (runBatches extract batchSize batchStart l).length ≤ l.length :=
  length_runBatchesGo_le extract batchSize l.length batchStart l

/-! ## Claim C2 -/

/-- Claim C2: the returned record count never exceeds `maxResults = n`.
Counterexample: JS `params.maxResults || 500` treats `n = 0` as absent and
falls back to 500, so a request with `maxResults = 0` and one discovered
link still yields one record. -/
theorem c2_counterexample :
    ¬ (scrapeBusinesses ["/maps/place/a"] 0 500 3 (fun _ => some demoBusiness)).length ≤ 0 := by
  decide

/-- Claim C2, amended: for every request with `maxResults = n ≥ 1`, the slice
of discovered links that is processed has length at most
`min n (min envCeiling discovered)` and the returned record count never
exceeds `n`; a request with `n = 0` instead falls back to the default cap
of 500 through the `||` operator. -/
theorem c2_max_results_cap (businessLinks : List String)
    (maxResults envMax maxConcurrent : ℕ) (extract : ℕ → Option BusinessData)
    (h : 1 ≤ maxResults) :
    (businessLinks.take (actualMaxResults maxResults envMax)).length ≤
      min maxResults (min envMax businessLinks.length) ∧
    (scrapeBusinesses businessLinks maxResults envMax maxConcurrent extract).length ≤
      maxResults := by
  have hjs : jsOrDefault maxResults 500 = maxResults := by
    unfold jsOrDefault
    rw [if_neg (by omega)]
  have hact : actualMaxResults maxResults envMax = min maxResults envMax := by
    unfold actualMaxResults
    rw [hjs]
  have hlen : (businessLinks.take (actualMaxResults maxResults envMax)).length =
      min (actualMaxResults maxResults envMax) businessLinks.length :=
    List.length_take _ _
  constructor
  · rw [hlen, hact]
    omega
  · unfold scrapeBusinesses
    have hrun := length_runBatches_le extract (min maxConcurrent 5) 0
      (businessLinks.take (actualMaxResults maxResults envMax))
    calc (runBatches extract (min maxConcurrent 5) 0
          (businessLinks.take (actualMaxResults maxResults envMax))).length
        ≤ (businessLinks.take (actualMaxResults maxResults envMax)).length := hrun
      _ ≤ maxResults := by rw [hlen, hact]; omega

/-- Witness for C2 at a one-link request with `maxResults = 1`. -/
theorem c2_max_results_cap_witness :
    ((["/maps/place/a"] : List String).take (actualMaxResults 1 500)).length ≤
      min 1 (min 500 (["/maps/place/a"] : List String).length) ∧
    (scrapeBusinesses ["/maps/place/a"] 1 500 3 (fun _ => some demoBusiness)).length ≤ 1 :=
  c2_max_results_cap ["/maps/place/a"] 1 500 3 (fun _ => some demoBusiness) (by decide)

/-! ## Claim C8 -/

/-- Claim C8: whenever a batch is dispatched in parallel (two or more pages
opened), each batch member gets its own distinct page.  Counterexample: if
the browser connection drops after two of the three page creations, the
parallel condition `pages.length > 1` still holds but the assignment
`index % pages.length` maps members 0 and 2 to the same page. -/
theorem c8_counterexample :
    1 < (createdPages 3 (fun i => decide (i < 2))).length ∧
    ¬ (pageAssignment 3 (createdPages 3 (fun i => decide (i < 2))).length).Nodup := by
  decide

/-- Claim C8, amended: batch member `i` is assigned page `i % pages.length`;
the assigned pages are pairwise distinct whenever at least as many pages as
batch members were opened (in particular when every creation succeeded), and
all pages of the batch list are closed at batch end. -/
theorem c8_page_ownership (batchLen pagesLen : ℕ) (connected : ℕ → Bool)
    (h : batchLen ≤ pagesLen) :
    (pageAssignment batchLen pagesLen).Nodup ∧
    closeBatchPages (createdPages batchLen connected) = createdPages batchLen connected := by
  constructor
  · unfold pageAssignment
    refine List.Nodup.map_on ?_ (List.nodup_range _)
    intro x hx y hy hxy
    rw [List.mem_range] at hx hy
    rwa [Nat.mod_eq_of_lt (lt_of_lt_of_le hx h),
      Nat.mod_eq_of_lt (lt_of_lt_of_le hy h)] at hxy
  · rfl

/-- Witness for C8 at a fully created batch of three pages. -/
theorem c8_page_ownership_witness :
    (pageAssignment 3 3).Nodup ∧
    closeBatchPages (createdPages 3 (fun _ => true)) = createdPages 3 (fun _ => true) :=
  c8_page_ownership 3 3 (fun _ => true) (by decide)

end MapDataMiner

namespace MapDataMiner

/-! ## Dedup lemmas -/

theorem mem_jsSetDedupAux (a : String) :
    ∀ (l seen : List String), a ∈ jsSetDedupAux seen l ↔ a ∈ l ∧ a ∉ seen := by
  intro l
  induction l with
  | nil => intro seen; simp [jsSetDedupAux]
  | cons x xs ih =>
    intro seen
    simp only [jsSetDedupAux]
    split
    · next hx =>
      rw [ih seen, List.mem_cons]
      constructor
      · exact fun hm => ⟨Or.inr hm.1, hm.2⟩
      · rintro ⟨h1 | h1, h2⟩
        · subst h1; exact absurd hx h2
        · exact ⟨h1, h2⟩
    · next hx =>
      rw [List.mem_cons, ih (x :: seen)]
      by_cases hax : a = x
      · subst hax
        simp [hx]
      · simp [hax, List.mem_cons]

theorem nodup_jsSetDedupAux : ∀ (l seen : List String), (jsSetDedupAux seen l).Nodup := by
  intro l
  induction l with
  | nil => intro seen; simp [jsSetDedupAux]
  | cons x xs ih =>
    intro seen
    simp only [jsSetDedupAux]
    split
    · exact ih seen
    · rw [List.nodup_cons]
      refine ⟨fun hmem => ?_, ih (x :: seen)⟩
      rw [mem_jsSetDedupAux] at hmem
      exact hmem.2 (List.mem_cons_self x seen)

theorem mem_jsSetDedup (a : String) (l : List String) : a ∈ jsSetDedup l ↔ a ∈ l := by
  unfold jsSetDedup
  rw [mem_jsSetDedupAux]
  simp

theorem nodup_jsSetDedup (l : List String) : (jsSetDedup l).Nodup :=
  nodup_jsSetDedupAux l []

/-! ## Claim C6 -/

/-- Claim C6: the final target-link list equals the union of the three
harvest strategies deduplicated by raw token, with only too-short tokens
discarded.  Counterexample: a direction-link href without the
`/maps/place/` marker is longer than 10 characters, so the claim keeps it,
but the final validation (scraper.ts 341-343) also requires the marker and
drops it. -/
theorem c6_counterexample :
    harvestLinks ["/maps/dir/40.7,-74.0/41.0,-73.5"] [] [] ≠
      specFinalLinks ["/maps/dir/40.7,-74.0/41.0,-73.5"] [] [] := by
  decide

/-- Claim C6, amended: the final list is the union of the three strategies
deduplicated by raw token equality, keeping exactly the tokens that are
nonempty, contain `/maps/place/`, and are longer than 10 characters; a token
harvested by several strategies appears exactly once (the list has no
duplicates and membership is union membership). -/
theorem c6_harvest_dedup (m1 m2 m3 : List String) :
    (harvestLinks m1 m2 m3).Nodup ∧
    ∀ s, s ∈ harvestLinks m1 m2 m3 ↔
      ((s ∈ m1 ∨ s ∈ m2 ∨ s ∈ m3) ∧ keepLink s = true) := by
  constructor
  · exact (nodup_jsSetDedup _).filter _
  · intro s
    unfold harvestLinks
    rw [List.mem_filter, mem_jsSetDedup, mem_jsSetDedup, List.mem_append,
      mem_jsSetDedup, List.mem_append]
    tauto

end MapDataMiner

namespace MapDataMiner

/-! ## Snapshot trace lemmas -/

theorem flatMap_singleton_eq_map {α β : Type} (f : α → β) (l : List α) :
    l.flatMap (fun i => [f i]) = l.map f := by
  induction l with
  | nil => rfl
  | cons x xs ih => simp [List.flatMap_cons, ih]

theorem seqTrace_none_eq (len : ℕ) :
    seqTrace len none =
      searchingSnap :: extractionStartSnap ::
        ((List.range len).map (fun i => itemSnap false i len) ++ [completedSnap]) := by
  unfold seqTrace
  have hinj : (List.range len).flatMap
      (fun i => injectPause none len i ++ [itemSnap false i len]) =
      (List.range len).map (fun i => itemSnap false i len) := by
    simp only [injectPause, List.nil_append]
    exact flatMap_singleton_eq_map _ _
  rw [hinj]

theorem chain_le_append_last (f : ℕ → ℚ) (hmono : ∀ i, f i ≤ f (i + 1)) :
    ∀ (n : ℕ) (c : ℚ), (∀ i, i < n → f i ≤ c) →
      List.Chain' (· ≤ ·) ((List.range n).map f ++ [c]) := by
  have hm : Monotone f := monotone_nat_of_le_succ hmono
  intro n
  induction n with
  | zero => intro c _; simp
  | succ n ih =>
    intro c hlast
    have h1 : List.Chain' (· ≤ ·) ((List.range n).map f ++ [f n]) :=
      ih (f n) (fun i hi => hm (le_of_lt hi))
    have h3 : List.Chain' (· ≤ ·) (((List.range n).map f ++ [f n]) ++ [c]) := by
      refine h1.append (List.chain'_singleton c) ?_
      intro x hx y hy
      rw [List.getLast?_concat] at hx
      simp only [Option.mem_def, Option.some_inj] at hx
      simp only [List.head?_cons, Option.mem_def, Option.some_inj] at hy
      subst hx
      subst hy
      exact hlast n (Nat.lt_succ_self n)
    rw [List.range_succ, List.map_append]
    exact h3

/-! ## Claim C7 -/

/-- Claim C7: across one run, successive snapshot percentages are
non-decreasing except on a transition into the `error` state.
Counterexample: in a five-target run, a `pause()` issued right after the
10% discovery snapshot emits `Math.round((0 / 5) * 100) = 0` with status
`paused` — a decrease that does not land on `error`. -/
theorem c7_counterexample : ¬ NoDecreaseExceptError (seqTrace 5 (some 0)) := by
  intro h
  unfold NoDecreaseExceptError at h
  rw [show seqTrace 5 (some 0) =
      searchingSnap :: extractionStartSnap :: pauseSnap 0 5 :: resumeSnap 0 5 ::
        itemSnap false 0 5 :: itemSnap false 1 5 :: itemSnap false 2 5 ::
        itemSnap false 3 5 :: itemSnap false 4 5 :: [completedSnap] from rfl] at h
  obtain ⟨_, h1⟩ := List.chain'_cons.mp h
  obtain ⟨h12, _⟩ := List.chain'_cons.mp h1
  have hlt : (pauseSnap 0 5).progress < extractionStartSnap.progress := by
    simp only [pauseSnap, extractionStartSnap, jsRound]
    norm_num
  have hbad := h12 hlt
  simp only [pauseSnap] at hbad
  exact absurd hbad (by decide)

/-- Claim C7, amended: in a sequential-path run during which no control
command is issued, successive snapshot percentages are non-decreasing
(0, then 10, then `10 + 85·i/len` increasing, then 100); the snapshots
emitted by `pause()`/`resume()`/`cancel()` recompute the percentage as
`round(100·cursor/total)` and may drop below the last emitted value. -/
theorem c7_monotone (len : ℕ) (h : 1 ≤ len) :
    List.Chain' (· ≤ ·) ((seqTrace len none).map ScrapingProgress.progress) := by
  obtain ⟨m, rfl⟩ : ∃ m, len = m + 1 := ⟨len - 1, by omega⟩
  rw [seqTrace_none_eq]
  simp only [List.map_cons, List.map_append, List.map_map, List.map_nil]
  show List.Chain' (· ≤ ·)
    ([(0 : ℚ), 10] ++
      ((List.range (m + 1)).map (fun (i : ℕ) => 10 + ((i : ℚ) / ((m + 1 : ℕ) : ℚ)) * 85) ++
        [(100 : ℚ)]))
  have hL : (0 : ℚ) < ((m + 1 : ℕ) : ℚ) := by positivity
  have hnonneg : ∀ i : ℕ, (0 : ℚ) ≤ ((i : ℚ) / ((m + 1 : ℕ) : ℚ)) * 85 := by
    intro i
    positivity
  have hmono : ∀ i : ℕ,
      10 + ((i : ℚ) / ((m + 1 : ℕ) : ℚ)) * 85 ≤
        10 + (((i + 1 : ℕ) : ℚ) / ((m + 1 : ℕ) : ℚ)) * 85 := by
    intro i
    have hcast : (i : ℚ) ≤ ((i + 1 : ℕ) : ℚ) := by push_cast; linarith
    have hstep := div_le_div_of_nonneg_right hcast hL.le
    linarith
  have hlast : ∀ i : ℕ, i < m + 1 → 10 + ((i : ℚ) / ((m + 1 : ℕ) : ℚ)) * 85 ≤ 100 := by
    intro i hi
    have hle : (i : ℚ) ≤ ((m + 1 : ℕ) : ℚ) := by
      have : (i : ℕ) ≤ m + 1 := by omega
      exact_mod_cast this
    have hdiv : (i : ℚ) / ((m + 1 : ℕ) : ℚ) ≤ 1 := (div_le_one hL).mpr hle
    have h0 : (0 : ℚ) ≤ (i : ℚ) / ((m + 1 : ℕ) : ℚ) := by positivity
    linarith
  refine List.Chain'.append ?_
    (chain_le_append_last _ hmono (m + 1) 100 hlast) ?_
  · exact List.chain'_cons.mpr ⟨by norm_num, List.chain'_singleton _⟩
  · intro x hx y hy
    have hx10 : x = 10 := by
      simp only [List.getLast?_cons_cons, List.getLast?_singleton,
        Option.mem_def, Option.some_inj] at hx
      exact hx.symm
    subst hx10
    have hmem : y ∈ (List.range (m + 1)).map
        (fun (i : ℕ) => 10 + ((i : ℚ) / ((m + 1 : ℕ) : ℚ)) * 85) ++ [(100 : ℚ)] := by
      have := List.eq_cons_of_mem_head? hy
      rw [this]
      exact List.mem_cons_self _ _
    rcases List.mem_append.mp hmem with hmem | hmem
    · obtain ⟨i, _, rfl⟩ := List.mem_map.mp hmem
      have := hnonneg i
      linarith
    · simp only [List.mem_singleton] at hmem
      subst hmem
      norm_num

/-- Witness for C7 at a three-target run. -/
theorem c7_monotone_witness :
    List.Chain' (· ≤ ·) ((seqTrace 3 none).map ScrapingProgress.progress) :=
  c7_monotone 3 (by decide)

end MapDataMiner
